import Mathlib

set_option autoImplicit false

/-!
EC2 Transit Gateway Connect attachment resource.

A shallow embedding of `aws/resource_aws_ec2_transit_gateway_connect_attachment.go`:
the resource schema and its four lifecycle handlers (create, read, update, delete).

* Go `error` values are `Option GoError` (`none` is `nil`).
* Go pointers are `Option`; dereferencing `none` is a run-time panic.
* `*schema.ResourceData` is an explicit record that the handlers pass along.
* The remote API is a record of transition functions over an arbitrary world type `W`,
  so two calls of the same operation may answer differently.
* Every handler also returns the list of API calls it issued, in order.
-/

namespace Ec2TransitGatewayConnect

/-! ## Go and AWS SDK primitives -/

/-- A non-nil Go error: an AWS API error carrying a code and a message, or any other error. -/
inductive GoError where
  | aws (code message : String)
  | other (text : String)
deriving DecidableEq, Repr

/-- The `Error()` text of an error. -/
def GoError.Error : GoError → String
  | .aws code message => code ++ ": " ++ message
  | .other text => text

/-- The call `fmt.Errorf(context + "%s", err)`: a fresh plain error whose text ends with the
text of `err`. -/
def Errorf (context : String) (err : GoError) : GoError :=
  .other (context ++ err.Error)

/-- The call `fmt.Errorf` with no error argument. -/
def ErrorfText (text : String) : GoError :=
  .other text

/-- Modelled from the spec: `isAWSErr` is not under src/. The spec speaks of specific
"not found" error codes: the error is an AWS error that carries the given code and whose
message contains the given text (every message contains the empty text). -/
def isAWSErr (err : Option GoError) (code message : String) : Bool :=
  match err with
  | some (.aws c m) => c == code && (message.isEmpty || decide (2 ≤ (m.splitOn message).length))
  | _ => false

/-- The function `aws.StringValue`: the pointed-to string, or the empty string for `nil`. -/
def aws.StringValue (p : Option String) : String :=
  p.getD ""

/-- The function `aws.String`: a pointer to the given string. -/
def aws.String (s : String) : Option String :=
  some s

/-! ## Attribute values and the resource schema -/

/-- A Go `map[string]string`, as an association list read with `List.lookup`
(the first entry of a key is the one that counts). -/
abbrev TagMap := List (String × String)

/-- The two schema value types this resource uses. -/
inductive ValueType where
  | TypeString
  | TypeMap
deriving DecidableEq, Repr

/-- A dynamically typed attribute value (a non-nil Go interface value). -/
inductive Value where
  | str (s : String)
  | map (m : TagMap)
deriving DecidableEq, Repr

/-- The schema type of a value. -/
def Value.typ : Value → ValueType
  | .str _ => .TypeString
  | .map _ => .TypeMap

/-- The zero value of a schema type. -/
def zeroValue : ValueType → Value
  | .TypeString => .str ""
  | .TypeMap => .map []

/-- The type assertion `v.(string)`; `none` stands for the run-time panic of a failed
assertion (which a nil interface value always causes). -/
def assertString : Option Value → Option String
  | some (.str s) => some s
  | _ => none

/-- The type assertion on a map value; `none` stands for the run-time panic. -/
def assertMap : Option Value → Option TagMap
  | some (.map m) => some m
  | _ => none

/-- One entry of a schema map: `schema.Schema` restricted to the fields the file sets. -/
structure Schema where
  Typ : ValueType
  Required : Bool
  Optional : Bool
  Computed : Bool
deriving DecidableEq, Repr

/-- Modelled from the spec: `tagsSchema` is not under src/. The spec describes the tag set
as key-value pairs that may be updated in place: an optional map. -/
def tagsSchema : Schema :=
  { Typ := .TypeMap, Required := false, Optional := true, Computed := false }

/-- The part of `schema.Resource` that is data: the schema map, in source order. -/
structure Resource where
  Schema : List (String × Schema)
deriving DecidableEq, Repr

/-- The schema map of `resourceAwsEc2TransitGatewayConnect` (source lines 24 to 58). -/
def resourceAwsEc2TransitGatewayConnect : Resource :=
  { Schema :=
      [ ("transit_gateway_attachment_id",
          { Typ := .TypeString, Required := true, Optional := false, Computed := false }),
        ("transit_gateway_id",
          { Typ := .TypeString, Required := true, Optional := false, Computed := false }),
        ("transit_gateway_owner_id",
          { Typ := .TypeString, Required := false, Optional := false, Computed := true }),
        ("resource_owner_id",
          { Typ := .TypeString, Required := false, Optional := false, Computed := true }),
        ("resource_id",
          { Typ := .TypeString, Required := false, Optional := false, Computed := true }),
        ("state",
          { Typ := .TypeString, Required := false, Optional := false, Computed := true }),
        ("association",
          { Typ := .TypeMap, Required := false, Optional := false, Computed := true }),
        ("creation_time",
          { Typ := .TypeString, Required := false, Optional := false, Computed := true }),
        ("tags", tagsSchema) ] }

/-- The names of the attributes the schema marks `Computed`. -/
def computedAttributes (r : Resource) : List String :=
  (r.Schema.filter (fun kv => kv.2.Computed)).map Prod.fst

/-! ## Resource data -/

/-- The handle `*schema.ResourceData`: the schema it was built over, the resource id, the
attribute values of the prior state and the current (merged) attribute values. -/
structure ResourceData where
  schema : List (String × Schema)
  id : String
  state : List (String × Value)
  values : List (String × Value)
deriving DecidableEq, Repr

/-- Reading one attribute through the schema: an attribute the schema does not declare
reads as nil; a declared one reads as its stored value, or the zero value of its type. -/
def readField (schema : List (String × Schema)) (store : List (String × Value))
    (key : String) : Option Value :=
  match List.lookup key schema with
  | none => none
  | some s =>
    match List.lookup key store with
    | some v => if v.typ = s.Typ then some v else some (zeroValue s.Typ)
    | none => some (zeroValue s.Typ)

/-- The method `d.Id()`. -/
def ResourceData.Id (d : ResourceData) : String :=
  d.id

/-- The method `d.SetId(v)`. -/
def ResourceData.SetId (d : ResourceData) (v : String) : ResourceData :=
  { d with id := v }

/-- The method `d.Get(key)`; `none` is the nil interface value. -/
def ResourceData.Get (d : ResourceData) (key : String) : Option Value :=
  readField d.schema d.values key

/-- The method `d.GetChange(key)`: the old and the new value. -/
def ResourceData.GetChange (d : ResourceData) (key : String) : Option Value × Option Value :=
  (readField d.schema d.state key, readField d.schema d.values key)

/-- Extensional equality of two Go maps (what `reflect.DeepEqual` decides on maps). -/
def TagMap.deepEqual (a b : TagMap) : Bool :=
  a.all (fun kv => List.lookup kv.1 a == List.lookup kv.1 b) &&
  b.all (fun kv => List.lookup kv.1 a == List.lookup kv.1 b)

/-- The function `reflect.DeepEqual` on two interface values. -/
def deepEqual : Option Value → Option Value → Bool
  | none, none => true
  | some (.str a), some (.str b) => a == b
  | some (.map a), some (.map b) => TagMap.deepEqual a b
  | _, _ => false

/-- The method `d.HasChange(key)`: the old and the new value differ. -/
def ResourceData.HasChange (d : ResourceData) (key : String) : Bool :=
  !(deepEqual (d.GetChange key).1 (d.GetChange key).2)

/-- The method `d.Set(key, value)`: writes the value of a declared attribute of matching
type; otherwise leaves the data alone and returns an error. -/
def ResourceData.Set (d : ResourceData) (key : String) (v : Value) :
    ResourceData × Option GoError :=
  match List.lookup key d.schema with
  | none => (d, some (.other ("Invalid address to set: " ++ key)))
  | some s =>
    if v.typ = s.Typ then ({ d with values := (key, v) :: d.values }, none)
    else (d, some (.other (key ++ ": value of the wrong type")))

/-! ## EC2 API types (the fields the handlers touch) -/

/-- The struct `ec2.CreateTransitGatewayConnectRequestOptions`. -/
structure CreateTransitGatewayConnectRequestOptions where
  Protocol : Option String
deriving DecidableEq, Repr

/-- The struct `ec2.TagSpecification`, with its tags as a map. -/
structure TagSpecification where
  ResourceType : String
  Tags : TagMap
deriving DecidableEq, Repr

/-- The struct `ec2.CreateTransitGatewayConnectInput`. -/
structure CreateTransitGatewayConnectInput where
  Options : Option CreateTransitGatewayConnectRequestOptions
  TransportTransitGatewayAttachmentId : Option String
  TagSpecifications : List TagSpecification
deriving DecidableEq, Repr

/-- The struct `ec2.TransitGatewayConnectOptions`. -/
structure TransitGatewayConnectOptions where
  Protocol : Option String
deriving DecidableEq, Repr

/-- The struct `ec2.TransitGatewayConnect`. -/
structure TransitGatewayConnect where
  TransitGatewayAttachmentId : Option String
  TransportTransitGatewayAttachmentId : Option String
  TransitGatewayId : Option String
  State : Option String
  CreationTime : Option String
  Options : Option TransitGatewayConnectOptions
  Tags : TagMap
deriving DecidableEq, Repr

/-- The struct `ec2.CreateTransitGatewayConnectOutput`. -/
structure CreateTransitGatewayConnectOutput where
  TransitGatewayConnect : Option TransitGatewayConnect
deriving DecidableEq, Repr

/-- The struct `ec2.TransitGatewayOptions`. -/
structure TransitGatewayOptions where
  AssociationDefaultRouteTableId : Option String
  PropagationDefaultRouteTableId : Option String
deriving DecidableEq, Repr

/-- The struct `ec2.TransitGateway`. -/
structure TransitGateway where
  TransitGatewayId : Option String
  OwnerId : Option String
  Options : Option TransitGatewayOptions
deriving DecidableEq, Repr

/-- The struct `ec2.DeleteTransitGatewayConnectInput`. -/
structure DeleteTransitGatewayConnectInput where
  TransitGatewayAttachmentId : Option String
deriving DecidableEq, Repr

/-- The constant `ec2.ResourceTypeTransitGatewayAttachment`. -/
def ec2.ResourceTypeTransitGatewayAttachment : String :=
  "transit-gateway-attachment"

/-- Modelled from the spec: `ec2TagSpecificationsFromMap` is not under src/. The create
request carries the configured tag set for the given resource type. -/
def ec2TagSpecificationsFromMap (m : TagMap) (t : String) : List TagSpecification :=
  [{ ResourceType := t, Tags := m }]

/-- One call against the cloud provider API, as the handlers issue them. -/
inductive ApiCall where
  | CreateTransitGatewayConnect (input : CreateTransitGatewayConnectInput)
  | DescribeTransitGateway (transitGatewayID : String)
  | DescribeTransitGatewayConnect (id : String)
  | DeleteTransitGatewayConnect (input : DeleteTransitGatewayConnectInput)
  | UpdateTags (identifier : String) (removed : List String) (updated : TagMap)
deriving DecidableEq, Repr

/-- Modelled from the spec: the connection `*ec2.EC2` together with the describe helpers
`ec2DescribeTransitGateway` and `ec2DescribeTransitGatewayConnect` and the tag-update call,
none of which is under src/. Each is a parameter: it maps a request and the state of the
remote world to a Go result pair and the next state of the world. -/
structure EC2 (W : Type) where
  CreateTransitGatewayConnect :
    CreateTransitGatewayConnectInput → W →
      (Option CreateTransitGatewayConnectOutput × Option GoError) × W
  DeleteTransitGatewayConnect : DeleteTransitGatewayConnectInput → W → Option GoError × W
  ec2DescribeTransitGateway : String → W → (Option TransitGateway × Option GoError) × W
  ec2DescribeTransitGatewayConnect :
    String → W → (Option TransitGatewayConnect × Option GoError) × W
  UpdateTags : String → List String → TagMap → W → Option GoError × W

/-- The struct `keyvaluetags.IgnoreConfig`. -/
structure IgnoreConfig where
  Keys : List String
  KeyPrefixes : List String
deriving DecidableEq, Repr

/-- Modelled from the spec: the tag filters `IgnoreAws` and `IgnoreConfig` of the
keyvaluetags package are not under src/; the spec only says that remote tags are "filtered
by ignore-rules". Both are parameters. -/
structure KeyValueTags where
  IgnoreAws : TagMap → TagMap
  IgnoreConfig : IgnoreConfig → TagMap → TagMap

/-- The provider handle `*AWSClient`, restricted to the two fields the handlers use. -/
structure AWSClient (W : Type) where
  ec2conn : EC2 W
  IgnoreTagsConfig : IgnoreConfig

/-- How a handler run ends: it returns a Go error value (`none` is nil); or it returns, in
the position of its error result, the value of the resource constructor, a non-nil
`*schema.Resource` (the return statement of line 92); or it panics. -/
inductive Outcome where
  | returned (err : Option GoError)
  | returnedResource (r : Resource)
  | panicked
deriving DecidableEq, Repr

/-- A finished handler run: its outcome, the resource data and the remote world afterwards,
and the API calls issued, in order. -/
structure Run (W : Type) where
  result : Outcome
  d : ResourceData
  world : W
  calls : List ApiCall

/-! ## Tag update (keyvaluetags) -/

/-- The constructor `keyvaluetags.New` applied to an attribute value: the map it holds, or
the empty map. -/
def keyvaluetags.New : Option Value → TagMap
  | some (.map m) => m
  | _ => []

/-- Modelled from the spec: `KeyValueTags.Removed` is not under src/. The removed keys
between the old and the new tag map: the keys of the old map that the new map lacks. -/
def keyvaluetags.Removed (oldTags newTags : TagMap) : List String :=
  (oldTags.map Prod.fst).filter (fun k => (List.lookup k newTags).isNone)

/-- Modelled from the spec: `KeyValueTags.Updated` is not under src/. The added and changed
keys between the old and the new tag map: the entries of the new map whose value the old map
does not already hold under the same key. -/
def keyvaluetags.Updated (oldTags newTags : TagMap) : TagMap :=
  newTags.filter (fun kv =>
    List.lookup kv.1 newTags == some kv.2 && List.lookup kv.1 oldTags != some kv.2)

/-- Modelled from the spec: `keyvaluetags.Ec2UpdateTags` is not under src/. "Tag update
issues exactly the added/changed/removed keys between old and new tag maps", by "issuing a
tag-update call": one call that carries the removed keys and the added or changed entries. -/
def keyvaluetags.Ec2UpdateTags {W : Type} (conn : EC2 W) (identifier : String)
    (oldTagsMap newTagsMap : Option Value) (w : W) : (Option GoError × W) × List ApiCall :=
  let oldTags := keyvaluetags.New oldTagsMap
  let newTags := keyvaluetags.New newTagsMap
  let removedTags := keyvaluetags.Removed oldTags newTags
  let updatedTags := keyvaluetags.Updated oldTags newTags
  (conn.UpdateTags identifier removedTags updatedTags w,
    [ApiCall.UpdateTags identifier removedTags updatedTags])

/-! ## The four lifecycle handlers -/

/-- The handler `resourceAwsEc2TransitGatewayConnectRead` (source lines 95 to 168). -/
def resourceAwsEc2TransitGatewayConnectRead {W : Type} (kvt : KeyValueTags)
    (d : ResourceData) (meta : AWSClient W) (w : W) : Run W :=
  let conn := meta.ec2conn
  let ignoreTagsConfig := meta.IgnoreTagsConfig
  -- line 99
  let r := conn.ec2DescribeTransitGatewayConnect d.Id w
  let transitGatewayConnect := r.1.1
  let err := r.1.2
  let w1 := r.2
  let calls1 := [ApiCall.DescribeTransitGatewayConnect d.Id]
  -- lines 101 to 105
  if isAWSErr err "InvalidTransitGatewayConnect.NotFound" "" then
    { result := .returned none, d := d.SetId "", world := w1, calls := calls1 }
  else
  -- lines 107 to 109
  match err with
  | some e =>
    { result := .returned (some (Errorf "error reading EC2 Transit Gateway Connect: " e)),
      d := d, world := w1, calls := calls1 }
  | none =>
  -- lines 111 to 115
  match transitGatewayConnect with
  | none => { result := .returned none, d := d.SetId "", world := w1, calls := calls1 }
  | some tgc =>
  -- lines 117 and 118
  let transitGatewayID := aws.StringValue tgc.TransitGatewayId
  let r2 := conn.ec2DescribeTransitGateway transitGatewayID w1
  let transitGateway := r2.1.1
  let err2 := r2.1.2
  let w2 := r2.2
  let calls2 := calls1 ++ [ApiCall.DescribeTransitGateway transitGatewayID]
  -- lines 119 to 121
  match err2 with
  | some e =>
    { result := .returned (some
        (Errorf ("error describing EC2 Transit Gateway (" ++ transitGatewayID ++ "): ") e)),
      d := d, world := w2, calls := calls2 }
  | none =>
  -- line 123: the field access on a nil transit gateway panics
  match transitGateway with
  | none => { result := .panicked, d := d, world := w2, calls := calls2 }
  | some tgw =>
  match tgw.Options with
  | none =>
    { result := .returned (some (ErrorfText
        ("error describing EC2 Transit Gateway (" ++ transitGatewayID ++ "): missing options"))),
      d := d, world := w2, calls := calls2 }
  | some _ =>
  -- lines 145 to 147
  match tgc.Options with
  | none =>
    { result := .returned (some (ErrorfText
        ("error reading EC2 Transit Gateway Connect (" ++ d.Id ++ "): missing options"))),
      d := d, world := w2, calls := calls2 }
  | some _ =>
  -- lines 157 to 159
  let s := d.Set "tags"
    (.map (kvt.IgnoreConfig ignoreTagsConfig (kvt.IgnoreAws tgc.Tags)))
  match s.2 with
  | some e =>
    { result := .returned (some (Errorf "error setting tags: " e)),
      d := s.1, world := w2, calls := calls2 }
  | none =>
  -- line 163: the error of this Set is dropped
  let s2 := s.1.Set "transit_gateway_id" (.str (aws.StringValue tgc.TransitGatewayId))
  { result := .returned none, d := s2.1, world := w2, calls := calls2 }

/-- The handler `resourceAwsEc2TransitGatewayConnectCreate` (source lines 62 to 93).

Line 92 is `return resourceAwsEc2TransitGatewayConnect(d, meta)`: the call goes to the
resource constructor of lines 14 to 60, which uses neither the handle nor the client, and
the handler ends with that value. No other handler is called; the read handler in
particular is not. -/
def resourceAwsEc2TransitGatewayConnectCreate {W : Type}
    (d : ResourceData) (meta : AWSClient W) (w : W) : Run W :=
  let conn := meta.ec2conn
  -- line 65
  match assertString (d.Get "transit_gateway_id") with
  | none => { result := .panicked, d := d, world := w, calls := [] }
  | some transitGatewayID =>
  -- line 69
  match assertString (d.Get "protocol") with
  | none => { result := .panicked, d := d, world := w, calls := [] }
  | some protocol =>
  -- line 72
  match assertMap (d.Get "tags") with
  | none => { result := .panicked, d := d, world := w, calls := [] }
  | some tags =>
  let input : CreateTransitGatewayConnectInput :=
    { Options := some { Protocol := aws.String protocol },
      TransportTransitGatewayAttachmentId := aws.String transitGatewayID,
      TagSpecifications :=
        ec2TagSpecificationsFromMap tags ec2.ResourceTypeTransitGatewayAttachment }
  -- line 76
  let r := conn.CreateTransitGatewayConnect input w
  let output := r.1.1
  let err := r.1.2
  let w1 := r.2
  let calls1 := [ApiCall.CreateTransitGatewayConnect input]
  -- lines 77 to 79
  match err with
  | some e =>
    { result := .returned (some (Errorf "error creating EC2 Transit Gateway Connect: " e)),
      d := d, world := w1, calls := calls1 }
  | none =>
  -- line 81: both field accesses panic on nil
  match output with
  | none => { result := .panicked, d := d, world := w1, calls := calls1 }
  | some out =>
  match out.TransitGatewayConnect with
  | none => { result := .panicked, d := d, world := w1, calls := calls1 }
  | some created =>
  let d1 := d.SetId (aws.StringValue created.TransitGatewayAttachmentId)
  -- line 83
  let r2 := conn.ec2DescribeTransitGateway transitGatewayID w1
  let transitGateway := r2.1.1
  let err2 := r2.1.2
  let w2 := r2.2
  let calls2 := calls1 ++ [ApiCall.DescribeTransitGateway transitGatewayID]
  -- lines 84 to 86
  match err2 with
  | some e =>
    { result := .returned (some
        (Errorf ("error describing EC2 Transit Gateway (" ++ transitGatewayID ++ "): ") e)),
      d := d1, world := w2, calls := calls2 }
  | none =>
  -- line 88: the field access on a nil transit gateway panics
  match transitGateway with
  | none => { result := .panicked, d := d1, world := w2, calls := calls2 }
  | some tgw =>
  match tgw.Options with
  | none =>
    { result := .returned (some (ErrorfText
        ("error describing EC2 Transit Gateway (" ++ transitGatewayID ++ "): missing options"))),
      d := d1, world := w2, calls := calls2 }
  | some _ =>
  -- line 92
  { result := .returnedResource resourceAwsEc2TransitGatewayConnect,
    d := d1, world := w2, calls := calls2 }

/-- The handler `resourceAwsEc2TransitGatewayConnectUpdate` (source lines 170 to 238). -/
def resourceAwsEc2TransitGatewayConnectUpdate {W : Type}
    (d : ResourceData) (meta : AWSClient W) (w : W) : Run W :=
  let conn := meta.ec2conn
  -- line 229
  if d.HasChange "tags" then
    -- line 230
    let o := (d.GetChange "tags").1
    let n := (d.GetChange "tags").2
    -- line 232
    let u := keyvaluetags.Ec2UpdateTags conn d.Id o n w
    match u.1.1 with
    | some e =>
      { result := .returned (some
          (Errorf ("error updating EC2 Transit Gateway Connect (" ++ d.Id ++ ") tags: ") e)),
        d := d, world := u.1.2, calls := u.2 }
    | none => { result := .returned none, d := d, world := u.1.2, calls := u.2 }
  else
    { result := .returned none, d := d, world := w, calls := [] }

/-- The handler `resourceAwsEc2TransitGatewayConnectDelete` (source lines 240 to 259). -/
def resourceAwsEc2TransitGatewayConnectDelete {W : Type}
    (d : ResourceData) (meta : AWSClient W) (w : W) : Run W :=
  let conn := meta.ec2conn
  -- lines 243 to 245
  let input : DeleteTransitGatewayConnectInput :=
    { TransitGatewayAttachmentId := aws.String d.Id }
  -- line 248
  let r := conn.DeleteTransitGatewayConnect input w
  let err := r.1
  let w1 := r.2
  let calls1 := [ApiCall.DeleteTransitGatewayConnect input]
  -- lines 250 to 252
  if isAWSErr err "InvalidTransitGatewayAttachmentID.NotFound" "" then
    { result := .returned none, d := d, world := w1, calls := calls1 }
  else
  -- lines 254 to 258
  match err with
  | some e =>
    { result := .returned (some (Errorf "error deleting EC2 Transit Gateway Connect: " e)),
      d := d, world := w1, calls := calls1 }
  | none => { result := .returned none, d := d, world := w1, calls := calls1 }

/-! ## Concrete inputs -/

/-- A remote world without state whose every operation gives one fixed answer. -/
def fixedEC2 (created : Option CreateTransitGatewayConnectOutput × Option GoError)
    (deleted : Option GoError) (gateway : Option TransitGateway × Option GoError)
    (attachment : Option TransitGatewayConnect × Option GoError)
    (tagged : Option GoError) : EC2 Unit :=
  { CreateTransitGatewayConnect := fun _ w => (created, w),
    DeleteTransitGatewayConnect := fun _ w => (deleted, w),
    ec2DescribeTransitGateway := fun _ w => (gateway, w),
    ec2DescribeTransitGatewayConnect := fun _ w => (attachment, w),
    UpdateTags := fun _ _ _ w => (tagged, w) }

/-- Tag filters that drop nothing. -/
def keepAllTags : KeyValueTags :=
  { IgnoreAws := fun t => t, IgnoreConfig := fun _ t => t }

/-- An ignore configuration without rules. -/
def noIgnoreRules : IgnoreConfig :=
  { Keys := [], KeyPrefixes := [] }

/-- Resource data of an existing attachment, built over the schema of the resource. -/
def existingData : ResourceData :=
  { schema := resourceAwsEc2TransitGatewayConnect.Schema,
    id := "tgw-attach-1",
    state := [("transit_gateway_attachment_id", .str "tgw-attach-0"),
              ("transit_gateway_id", .str "tgw-0"),
              ("tags", .map [("Name", "a"), ("env", "dev")])],
    values := [("transit_gateway_attachment_id", .str "tgw-attach-0"),
               ("transit_gateway_id", .str "tgw-0"),
               ("tags", .map [("Name", "b"), ("team", "net")])] }

/-- A transit gateway whose options are populated. -/
def gatewayWithOptions : TransitGateway :=
  { TransitGatewayId := some "tgw-0", OwnerId := some "111122223333",
    Options := some { AssociationDefaultRouteTableId := none,
                      PropagationDefaultRouteTableId := none } }

/-- A transit gateway whose options are unset. -/
def gatewayWithoutOptions : TransitGateway :=
  { TransitGatewayId := some "tgw-0", OwnerId := some "111122223333", Options := none }

/-- An attachment as the describe call reports it, with options and one tag. -/
def describedAttachment : TransitGatewayConnect :=
  { TransitGatewayAttachmentId := some "tgw-attach-1",
    TransportTransitGatewayAttachmentId := some "tgw-attach-0",
    TransitGatewayId := some "tgw-0",
    State := some "available",
    CreationTime := some "2021-06-01T00:00:00Z",
    Options := some { Protocol := some "gre" },
    Tags := [("Name", "b")] }

/-- The AWS error of a delete call that finds no attachment. -/
def attachmentNotFound : GoError :=
  .aws "InvalidTransitGatewayAttachmentID.NotFound" "no such attachment"

/-- The AWS error of a describe call that finds no connect attachment. -/
def connectNotFound : GoError :=
  .aws "InvalidTransitGatewayConnect.NotFound" "no such connect attachment"

/-- A planned configuration, built over the schema of the resource. -/
def plannedData : ResourceData :=
  { schema := resourceAwsEc2TransitGatewayConnect.Schema,
    id := "",
    state := [],
    values := [("transit_gateway_attachment_id", .str "tgw-attach-0"),
               ("transit_gateway_id", .str "tgw-0"),
               ("tags", .map [("Name", "b")])] }

/-- The answer of a successful create call. -/
def createdOutput : CreateTransitGatewayConnectOutput :=
  { TransitGatewayConnect := some describedAttachment }

/-- The request the create handler builds from the three values it reads (source lines 67
to 73). -/
abbrev createInputOf (transitGatewayID protocol : String) (tags : TagMap) :
    CreateTransitGatewayConnectInput :=
  { Options := some { Protocol := aws.String protocol },
    TransportTransitGatewayAttachmentId := aws.String transitGatewayID,
    TagSpecifications :=
      ec2TagSpecificationsFromMap tags ec2.ResourceTypeTransitGatewayAttachment }

/-- An attachment as the describe call reports it, with its options unset. -/
def attachmentWithoutOptions : TransitGatewayConnect :=
  { describedAttachment with Options := none }

/-- A client whose remote world answers every call with nil values and no error. -/
def quietClient : AWSClient Unit :=
  { ec2conn := fixedEC2 (none, none) none (none, none) (none, none) none,
    IgnoreTagsConfig := noIgnoreRules }

/-- A client whose remote world answers every create call with the attachment
"tgw-attach-1", describes a transit gateway with options and finds the attachment. -/
def creatingClient : AWSClient Unit :=
  { ec2conn := fixedEC2 (some createdOutput, none) none (some gatewayWithOptions, none)
      (some describedAttachment, none) none,
    IgnoreTagsConfig := noIgnoreRules }

/-- A client whose remote world answers every create call with the attachment
"tgw-attach-1" and describes a transit gateway whose options are unset. -/
def unsetOptionsClient : AWSClient Unit :=
  { ec2conn := fixedEC2 (some createdOutput, none) none (some gatewayWithoutOptions, none)
      (some describedAttachment, none) none,
    IgnoreTagsConfig := noIgnoreRules }

/-! ## Helper lemmas -/

theorem isAWSErr_empty_message_iff (err : Option GoError) (code : String) :
    isAWSErr err code "" = true ↔ ∃ m, err = some (.aws code m) := by
  cases err with
  | none => simp [isAWSErr]
  | some e =>
    cases e with
    | aws c m =>
      have h : ("" : String).isEmpty = true := by decide
      simp [isAWSErr, h]
    | other t => simp [isAWSErr]

theorem assertString_protocol_over_resource_schema (d : ResourceData)
    (hs : d.schema = resourceAwsEc2TransitGatewayConnect.Schema) :
    assertString (d.Get "protocol") = none := by
  have hl : List.lookup "protocol" resourceAwsEc2TransitGatewayConnect.Schema = none := by
    decide
  have h : d.Get "protocol" = none := by
    simp only [ResourceData.Get, readField, hs, hl]
  rw [h]; rfl

/-- Over the schema of the resource, create panics at line 69: nothing is called and the
resource data is as before. -/
theorem create_panics_over_resource_schema {W : Type}
    (d : ResourceData) (meta : AWSClient W) (w : W)
    (hs : d.schema = resourceAwsEc2TransitGatewayConnect.Schema) :
    (resourceAwsEc2TransitGatewayConnectCreate d meta w).result = .panicked ∧
    (resourceAwsEc2TransitGatewayConnectCreate d meta w).d = d ∧
    (resourceAwsEc2TransitGatewayConnectCreate d meta w).calls = [] := by
  have hp := assertString_protocol_over_resource_schema d hs
  simp only [resourceAwsEc2TransitGatewayConnectCreate, hp]
  cases assertString (d.Get "transit_gateway_id") <;> simp

/-- No path of create returns nil. -/
theorem create_never_returns_nil {W : Type}
    (d : ResourceData) (meta : AWSClient W) (w : W) :
    (resourceAwsEc2TransitGatewayConnectCreate d meta w).result ≠ .returned none := by
  simp only [resourceAwsEc2TransitGatewayConnectCreate]
  repeat' split
  all_goals simp

/-- Create writes no attribute: the only field of the resource data it touches is the id. -/
theorem create_keeps_values {W : Type}
    (d : ResourceData) (meta : AWSClient W) (w : W) :
    (resourceAwsEc2TransitGatewayConnectCreate d meta w).d.values = d.values := by
  simp only [resourceAwsEc2TransitGatewayConnectCreate]
  repeat' split
  all_goals simp [ResourceData.SetId]

/-- Create never describes the attachment: the read handler is not run. -/
theorem create_never_describes_attachment {W : Type}
    (d : ResourceData) (meta : AWSClient W) (w : W) (id : String) :
    ApiCall.DescribeTransitGatewayConnect id ∉
      (resourceAwsEc2TransitGatewayConnectCreate d meta w).calls := by
  simp only [resourceAwsEc2TransitGatewayConnectCreate]
  repeat' split
  all_goals simp

/-- Every create request the handler sends carries, as transport attachment, the value it
read from "transit_gateway_id" at line 65. -/
theorem create_request_transport_is_gateway_id {W : Type}
    (d : ResourceData) (meta : AWSClient W) (w : W) (input : CreateTransitGatewayConnectInput)
    (h : ApiCall.CreateTransitGatewayConnect input ∈
      (resourceAwsEc2TransitGatewayConnectCreate d meta w).calls) :
    input.TransportTransitGatewayAttachmentId = assertString (d.Get "transit_gateway_id") := by
  simp only [resourceAwsEc2TransitGatewayConnectCreate] at h
  cases hid : assertString (d.Get "transit_gateway_id") with
  | none => simp [hid] at h
  | some transitGatewayID =>
    simp only [hid] at h
    repeat' split at h
    all_goals simp at h
    all_goals subst h
    all_goals rfl

theorem set_keeps_other_keys (d : ResourceData) (key : String) (v : Value) (k : String)
    (hk : k ≠ key) :
    List.lookup k (d.Set key v).1.values = List.lookup k d.values := by
  have hb : (k == key) = false := by simpa using hk
  unfold ResourceData.Set
  split
  · rfl
  · split
    · simp [List.lookup_cons, hb]
    · rfl

/-- Read writes no attribute other than "tags" and "transit_gateway_id". -/
theorem read_keeps_other_attributes {W : Type} (kvt : KeyValueTags)
    (d : ResourceData) (meta : AWSClient W) (w : W) (k : String)
    (htags : k ≠ "tags") (hgid : k ≠ "transit_gateway_id") :
    List.lookup k (resourceAwsEc2TransitGatewayConnectRead kvt d meta w).d.values =
      List.lookup k d.values := by
  simp only [resourceAwsEc2TransitGatewayConnectRead]
  repeat' split
  all_goals simp [ResourceData.SetId, set_keeps_other_keys, htags, hgid]

theorem lookup_isSome_iff_mem_keys (k : String) (l : TagMap) :
    (List.lookup k l).isSome ↔ k ∈ l.map Prod.fst := by
  induction l with
  | nil => simp
  | cons kv t ih =>
    obtain ⟨a, b⟩ := kv
    simp only [List.lookup_cons, List.map_cons, List.mem_cons]
    by_cases h : k = a
    · subst h; simp
    · have hb : (k == a) = false := by simpa using h
      simp [hb, ih, h]

theorem mem_of_lookup_eq_some (k v : String) (l : TagMap) (h : List.lookup k l = some v) :
    (k, v) ∈ l := by
  induction l with
  | nil => simp at h
  | cons kv t ih =>
    obtain ⟨a, b⟩ := kv
    simp only [List.lookup_cons] at h
    by_cases hk : k = a
    · subst hk; simp at h; simp [h]
    · have hb : (k == a) = false := by simpa using hk
      simp [hb] at h
      exact List.mem_cons_of_mem _ (ih h)

/-- Two maps are deeply equal exactly when every key reads the same in both. -/
theorem tagMap_deepEqual_iff (a b : TagMap) :
    TagMap.deepEqual a b = true ↔ ∀ k, List.lookup k a = List.lookup k b := by
  constructor
  · intro h k
    simp only [TagMap.deepEqual, Bool.and_eq_true, List.all_eq_true, beq_iff_eq] at h
    cases ha : List.lookup k a with
    | some v => rw [← ha]; exact h.1 (k, v) (mem_of_lookup_eq_some k v a ha)
    | none =>
      cases hb : List.lookup k b with
      | some v => rw [← ha, ← hb]; exact h.2 (k, v) (mem_of_lookup_eq_some k v b hb)
      | none => rfl
  · intro h
    simp only [TagMap.deepEqual, Bool.and_eq_true, List.all_eq_true, beq_iff_eq]
    exact ⟨fun kv _ => h kv.1, fun kv _ => h kv.1⟩

theorem mem_removed_iff (oldTags newTags : TagMap) (k : String) :
    k ∈ keyvaluetags.Removed oldTags newTags ↔
      (List.lookup k oldTags).isSome ∧ List.lookup k newTags = none := by
  simp only [keyvaluetags.Removed, List.mem_filter, lookup_isSome_iff_mem_keys,
    Option.isNone_iff_eq_none]

theorem mem_updated_iff (oldTags newTags : TagMap) (k v : String) :
    (k, v) ∈ keyvaluetags.Updated oldTags newTags ↔
      List.lookup k newTags = some v ∧ List.lookup k oldTags ≠ some v := by
  simp only [keyvaluetags.Updated, List.mem_filter, Bool.and_eq_true, beq_iff_eq, bne_iff_ne,
    ne_eq]
  constructor
  · intro h; exact h.2
  · intro h; exact ⟨mem_of_lookup_eq_some k v newTags h.1, h⟩

/-- Over the schema of the resource, "tags" always reads as a map. -/
theorem readField_tags_is_map (store : List (String × Value)) :
    ∃ m, readField resourceAwsEc2TransitGatewayConnect.Schema store "tags" = some (.map m) := by
  have hl : List.lookup "tags" resourceAwsEc2TransitGatewayConnect.Schema = some tagsSchema := by
    decide
  simp only [readField, hl]
  cases List.lookup "tags" store with
  | none => exact ⟨[], rfl⟩
  | some v =>
    cases v with
    | str s0 => exact ⟨[], by simp [Value.typ, tagsSchema, zeroValue]⟩
    | map m => exact ⟨m, by simp [Value.typ, tagsSchema]⟩

/-! ## Read and delete: the benign not-found outcomes -/

/-- C1: for every resource data and every describe outcome that reports absence (an AWS
error with code "InvalidTransitGatewayConnect.NotFound", or no error together with a nil
attachment), the read handler returns nil and the resulting resource id is empty. -/
theorem read_treats_missing_attachment_as_deleted {W : Type} (kvt : KeyValueTags)
    (d : ResourceData) (meta : AWSClient W) (w : W)
    (habsent :
      (∃ m, (meta.ec2conn.ec2DescribeTransitGatewayConnect d.Id w).1.2 =
          some (.aws "InvalidTransitGatewayConnect.NotFound" m)) ∨
      ((meta.ec2conn.ec2DescribeTransitGatewayConnect d.Id w).1.2 = none ∧
        (meta.ec2conn.ec2DescribeTransitGatewayConnect d.Id w).1.1 = none)) :
    (resourceAwsEc2TransitGatewayConnectRead kvt d meta w).result = .returned none ∧
    (resourceAwsEc2TransitGatewayConnectRead kvt d meta w).d.Id = "" := by
  simp only [resourceAwsEc2TransitGatewayConnectRead]
  generalize meta.ec2conn.ec2DescribeTransitGatewayConnect d.Id w = r at habsent ⊢
  obtain ⟨⟨tgc, err⟩, w1⟩ := r
  rcases habsent with hnf | ⟨herr, hnil⟩
  · have h := (isAWSErr_empty_message_iff _ _).mpr hnf
    simp only at h
    simp [h, ResourceData.SetId, ResourceData.Id]
  · simp only at herr hnil
    subst herr hnil
    simp [isAWSErr, ResourceData.SetId, ResourceData.Id]

theorem read_treats_missing_attachment_as_deleted_witness :
    ((∃ m, ((⟨fixedEC2 (none, none) none (none, none) (none, some connectNotFound) none,
          noIgnoreRules⟩ : AWSClient Unit).ec2conn.ec2DescribeTransitGatewayConnect
            existingData.Id ()).1.2 =
        some (.aws "InvalidTransitGatewayConnect.NotFound" m)) ∨
      (((⟨fixedEC2 (none, none) none (none, none) (none, some connectNotFound) none,
          noIgnoreRules⟩ : AWSClient Unit).ec2conn.ec2DescribeTransitGatewayConnect
            existingData.Id ()).1.2 = none ∧
        ((⟨fixedEC2 (none, none) none (none, none) (none, some connectNotFound) none,
          noIgnoreRules⟩ : AWSClient Unit).ec2conn.ec2DescribeTransitGatewayConnect
            existingData.Id ()).1.1 = none)) ∧
    (resourceAwsEc2TransitGatewayConnectRead keepAllTags existingData
      ⟨fixedEC2 (none, none) none (none, none) (none, some connectNotFound) none,
        noIgnoreRules⟩ ()).result = .returned none ∧
    (resourceAwsEc2TransitGatewayConnectRead keepAllTags existingData
      ⟨fixedEC2 (none, none) none (none, none) (none, some connectNotFound) none,
        noIgnoreRules⟩ ()).d.Id = "" :=
  ⟨Or.inl ⟨"no such connect attachment", rfl⟩,
    read_treats_missing_attachment_as_deleted keepAllTags existingData
      ⟨fixedEC2 (none, none) none (none, none) (none, some connectNotFound) none,
        noIgnoreRules⟩ () (Or.inl ⟨"no such connect attachment", rfl⟩)⟩

/-- C4: for every resource data and every outcome of the delete API call, the delete handler
returns nil if and only if the call succeeded or failed with an AWS error whose code is
"InvalidTransitGatewayAttachmentID.NotFound"; every other API error is returned wrapped in
the message "error deleting EC2 Transit Gateway Connect: ...". -/
theorem delete_fails_exactly_on_other_api_errors {W : Type}
    (d : ResourceData) (meta : AWSClient W) (w : W) :
    ((resourceAwsEc2TransitGatewayConnectDelete d meta w).result = .returned none ↔
      ((meta.ec2conn.DeleteTransitGatewayConnect
          { TransitGatewayAttachmentId := aws.String d.Id } w).1 = none ∨
        ∃ m, (meta.ec2conn.DeleteTransitGatewayConnect
          { TransitGatewayAttachmentId := aws.String d.Id } w).1 =
            some (.aws "InvalidTransitGatewayAttachmentID.NotFound" m))) ∧
    (∀ e, (meta.ec2conn.DeleteTransitGatewayConnect
          { TransitGatewayAttachmentId := aws.String d.Id } w).1 = some e →
        (¬ ∃ m, e = .aws "InvalidTransitGatewayAttachmentID.NotFound" m) →
        (resourceAwsEc2TransitGatewayConnectDelete d meta w).result =
          .returned (some (.other ("error deleting EC2 Transit Gateway Connect: " ++ e.Error)))) := by
  simp only [resourceAwsEc2TransitGatewayConnectDelete]
  generalize meta.ec2conn.DeleteTransitGatewayConnect
      { TransitGatewayAttachmentId := aws.String d.Id } w = r
  obtain ⟨err, w1⟩ := r
  have key := isAWSErr_empty_message_iff err "InvalidTransitGatewayAttachmentID.NotFound"
  cases hnf : isAWSErr err "InvalidTransitGatewayAttachmentID.NotFound" ""
  · have hno : ¬ ∃ m, err = some (.aws "InvalidTransitGatewayAttachmentID.NotFound" m) := by
      rw [← key, hnf]; simp
    cases err with
    | none => simp
    | some e =>
      refine ⟨?_, ?_⟩
      · simp only [hnf, Bool.false_eq_true, if_false]
        constructor
        · intro h; simp at h
        · intro h
          rcases h with h | h
          · simp at h
          · exact absurd h hno
      · intro e2 he2 _
        simp only [Option.some.injEq] at he2
        subst he2
        simp [Errorf]
  · obtain ⟨m, hm⟩ := key.mp hnf
    subst hm
    refine ⟨?_, ?_⟩
    · simp
    · intro e he hne
      simp only [Option.some.injEq] at he
      exact absurd ⟨m, he.symm⟩ hne

/-- C5 as stated fails: a delete that ends on the not-found code leaves a non-empty id in
place. -/
theorem delete_not_found_id_not_cleared :
    ¬ (∀ (d : ResourceData) (meta : AWSClient Unit) (w : Unit),
        d.Id ≠ "" →
        (∃ m, (meta.ec2conn.DeleteTransitGatewayConnect
            { TransitGatewayAttachmentId := aws.String d.Id } w).1 =
          some (.aws "InvalidTransitGatewayAttachmentID.NotFound" m)) →
        (resourceAwsEc2TransitGatewayConnectDelete d meta w).d.Id = "") := by
  intro h
  have h1 := h existingData
    ⟨fixedEC2 (none, none) (some attachmentNotFound) (none, none) (none, none) none,
      noIgnoreRules⟩ () (by decide) ⟨"no such attachment", rfl⟩
  revert h1
  decide

/-- C5, amended: for every resource data with a non-empty id, if the delete API call fails
with the attachment-not-found code, the delete handler returns nil and leaves the resource
data, the id included, as it was: the handler itself never clears the id. -/
theorem delete_not_found_leaves_data_unchanged {W : Type}
    (d : ResourceData) (meta : AWSClient W) (w : W)
    (hid : d.Id ≠ "")
    (hnf : ∃ m, (meta.ec2conn.DeleteTransitGatewayConnect
        { TransitGatewayAttachmentId := aws.String d.Id } w).1 =
      some (.aws "InvalidTransitGatewayAttachmentID.NotFound" m)) :
    (resourceAwsEc2TransitGatewayConnectDelete d meta w).result = .returned none ∧
    (resourceAwsEc2TransitGatewayConnectDelete d meta w).d = d ∧
    (resourceAwsEc2TransitGatewayConnectDelete d meta w).d.Id ≠ "" := by
  have h := (isAWSErr_empty_message_iff _ _).mpr hnf
  simp only [resourceAwsEc2TransitGatewayConnectDelete, h, if_true]
  exact ⟨trivial, trivial, hid⟩

theorem delete_not_found_leaves_data_unchanged_witness :
    existingData.Id ≠ "" ∧
    (resourceAwsEc2TransitGatewayConnectDelete existingData
      ⟨fixedEC2 (none, none) (some attachmentNotFound) (none, none) (none, none) none,
        noIgnoreRules⟩ ()).result = .returned none ∧
    (resourceAwsEc2TransitGatewayConnectDelete existingData
      ⟨fixedEC2 (none, none) (some attachmentNotFound) (none, none) (none, none) none,
        noIgnoreRules⟩ ()).d = existingData ∧
    (resourceAwsEc2TransitGatewayConnectDelete existingData
      ⟨fixedEC2 (none, none) (some attachmentNotFound) (none, none) (none, none) none,
        noIgnoreRules⟩ ()).d.Id ≠ "" :=
  ⟨by decide,
    delete_not_found_leaves_data_unchanged existingData
      ⟨fixedEC2 (none, none) (some attachmentNotFound) (none, none) (none, none) none,
        noIgnoreRules⟩ () (by decide) ⟨"no such attachment", rfl⟩⟩

/-! ## Create -/

/-- C2, the code at a failing input: the configuration is built over the schema of the
resource; the remote world answers every create call with success and every describe of
a transit gateway with a gateway whose Options is nil. The create handler returns no error:
it panics at line 69 without a single call, so the check of lines 88 to 90 is never
reached. The same holds for every resource data built over that schema. -/
theorem create_panics_before_it_validates_the_gateway :
    plannedData.schema = resourceAwsEc2TransitGatewayConnect.Schema ∧
    (∀ input, (unsetOptionsClient.ec2conn.CreateTransitGatewayConnect input ()).1 =
      (some createdOutput, none)) ∧
    (∀ id, (unsetOptionsClient.ec2conn.ec2DescribeTransitGateway id ()).1 =
      (some gatewayWithoutOptions, none)) ∧
    gatewayWithoutOptions.Options = none ∧
    (resourceAwsEc2TransitGatewayConnectCreate plannedData unsetOptionsClient ()).result =
      .panicked ∧
    (∀ e, (resourceAwsEc2TransitGatewayConnectCreate plannedData unsetOptionsClient ()).result ≠
      .returned (some e)) ∧
    (resourceAwsEc2TransitGatewayConnectCreate plannedData unsetOptionsClient ()).calls = [] ∧
    (∀ (d : ResourceData) (meta : AWSClient Unit) (w : Unit),
      d.schema = resourceAwsEc2TransitGatewayConnect.Schema →
      ∀ e, (resourceAwsEc2TransitGatewayConnectCreate d meta w).result ≠ .returned (some e)) := by
  refine ⟨rfl, fun _ => rfl, fun _ => rfl, rfl, by decide, ?_, by decide, ?_⟩
  · intro e
    rw [(create_panics_over_resource_schema plannedData unsetOptionsClient () rfl).1]
    exact fun hne => Outcome.noConfusion hne
  · intro d meta w hs e
    rw [(create_panics_over_resource_schema d meta w hs).1]
    exact fun hne => Outcome.noConfusion hne

/-- C6, the code at a failing input: the configuration is built over the schema of the
resource and the remote world answers every create call with the attachment
"tgw-attach-1". The create handler panics at line 69 before the call: the id it leaves is
the empty id it started with, not "tgw-attach-1". For every resource data over that schema
the id is left as it was, and on no input at all does the create handler return nil. -/
theorem create_never_stores_the_returned_id :
    plannedData.schema = resourceAwsEc2TransitGatewayConnect.Schema ∧
    (∀ input, (creatingClient.ec2conn.CreateTransitGatewayConnect input ()).1 =
      (some createdOutput, none)) ∧
    createdOutput.TransitGatewayConnect = some describedAttachment ∧
    describedAttachment.TransitGatewayAttachmentId = some "tgw-attach-1" ∧
    (resourceAwsEc2TransitGatewayConnectCreate plannedData creatingClient ()).result =
      .panicked ∧
    (resourceAwsEc2TransitGatewayConnectCreate plannedData creatingClient ()).calls = [] ∧
    (resourceAwsEc2TransitGatewayConnectCreate plannedData creatingClient ()).d.Id = "" ∧
    (resourceAwsEc2TransitGatewayConnectCreate plannedData creatingClient ()).d.Id ≠
      "tgw-attach-1" ∧
    (∀ (d : ResourceData) (meta : AWSClient Unit) (w : Unit),
      d.schema = resourceAwsEc2TransitGatewayConnect.Schema →
      (resourceAwsEc2TransitGatewayConnectCreate d meta w).d.Id = d.Id) ∧
    (∀ (d : ResourceData) (meta : AWSClient Unit) (w : Unit),
      (resourceAwsEc2TransitGatewayConnectCreate d meta w).result ≠ .returned none) := by
  refine ⟨rfl, fun _ => rfl, rfl, rfl, by decide, by decide, by decide, by decide, ?_, ?_⟩
  · intro d meta w hs
    rw [(create_panics_over_resource_schema d meta w hs).2.1]
  · intro d meta w
    exact create_never_returns_nil d meta w

/-- C7, the code at a failing input: the configuration is built over the schema of the
resource, with "transit_gateway_attachment_id" set to "tgw-attach-0" and
"transit_gateway_id" to "tgw-0". The create handler panics at line 69 and sends no request
at all. The request of lines 67 to 73, whatever protocol and tags it is given, would carry
"tgw-0", the value read from "transit_gateway_id" at line 65: on every input, every create
request the handler sends has that value as its TransportTransitGatewayAttachmentId. -/
theorem create_request_never_carries_the_configured_attachment :
    plannedData.schema = resourceAwsEc2TransitGatewayConnect.Schema ∧
    plannedData.Get "transit_gateway_attachment_id" = some (.str "tgw-attach-0") ∧
    plannedData.Get "transit_gateway_id" = some (.str "tgw-0") ∧
    (resourceAwsEc2TransitGatewayConnectCreate plannedData creatingClient ()).result =
      .panicked ∧
    (resourceAwsEc2TransitGatewayConnectCreate plannedData creatingClient ()).calls = [] ∧
    (∀ (d : ResourceData) (meta : AWSClient Unit) (w : Unit)
        (input : CreateTransitGatewayConnectInput),
      d.schema = resourceAwsEc2TransitGatewayConnect.Schema →
      ApiCall.CreateTransitGatewayConnect input ∉
        (resourceAwsEc2TransitGatewayConnectCreate d meta w).calls) ∧
    (∀ protocol tags,
      (createInputOf "tgw-0" protocol tags).TransportTransitGatewayAttachmentId =
        some "tgw-0") ∧
    (∀ (d : ResourceData) (meta : AWSClient Unit) (w : Unit)
        (input : CreateTransitGatewayConnectInput),
      ApiCall.CreateTransitGatewayConnect input ∈
        (resourceAwsEc2TransitGatewayConnectCreate d meta w).calls →
      input.TransportTransitGatewayAttachmentId =
        assertString (d.Get "transit_gateway_id")) := by
  refine ⟨rfl, by decide, by decide, by decide, by decide, ?_, fun _ _ => rfl, ?_⟩
  · intro d meta w input hs
    rw [(create_panics_over_resource_schema d meta w hs).2.2]
    simp
  · intro d meta w input h
    exact create_request_transport_is_gateway_id d meta w input h

/-- C8, the code at a failing input: the read handler runs on an existing resource, the
transit gateway validates and the attachment is found with options, state "available" and
a creation time; the handler returns nil, yet no attribute the schema marks Computed has
been written. On every input the read handler leaves every attribute other than "tags" and
"transit_gateway_id" as it was. The create handler does not run the read handler: on every
input it writes no attribute and never describes the attachment, and over the schema of
the resource it panics at line 69. -/
theorem create_leaves_computed_attributes_unset :
    describedAttachment.State = some "available" ∧
    computedAttributes resourceAwsEc2TransitGatewayConnect =
      ["transit_gateway_owner_id", "resource_owner_id", "resource_id", "state", "association",
       "creation_time"] ∧
    (resourceAwsEc2TransitGatewayConnectRead keepAllTags existingData
      ⟨fixedEC2 (none, none) none (some gatewayWithOptions, none)
        (some describedAttachment, none) none, noIgnoreRules⟩ ()).result = .returned none ∧
    (∀ k ∈ computedAttributes resourceAwsEc2TransitGatewayConnect,
      List.lookup k (resourceAwsEc2TransitGatewayConnectRead keepAllTags existingData
        ⟨fixedEC2 (none, none) none (some gatewayWithOptions, none)
          (some describedAttachment, none) none, noIgnoreRules⟩ ()).d.values = none) ∧
    (resourceAwsEc2TransitGatewayConnectRead keepAllTags existingData
      ⟨fixedEC2 (none, none) none (some gatewayWithOptions, none)
        (some describedAttachment, none) none, noIgnoreRules⟩ ()).d.Get "state" =
      some (.str "") ∧
    (∀ (kvt : KeyValueTags) (d : ResourceData) (meta : AWSClient Unit) (w : Unit),
      ∀ k ∈ computedAttributes resourceAwsEc2TransitGatewayConnect,
        List.lookup k (resourceAwsEc2TransitGatewayConnectRead kvt d meta w).d.values =
          List.lookup k d.values) ∧
    (resourceAwsEc2TransitGatewayConnectCreate plannedData creatingClient ()).result =
      .panicked ∧
    (∀ k ∈ computedAttributes resourceAwsEc2TransitGatewayConnect,
      List.lookup k
        (resourceAwsEc2TransitGatewayConnectCreate plannedData creatingClient ()).d.values =
        none) ∧
    (∀ (d : ResourceData) (meta : AWSClient Unit) (w : Unit),
      (resourceAwsEc2TransitGatewayConnectCreate d meta w).d.values = d.values ∧
      ∀ id, ApiCall.DescribeTransitGatewayConnect id ∉
        (resourceAwsEc2TransitGatewayConnectCreate d meta w).calls) := by
  have hc : computedAttributes resourceAwsEc2TransitGatewayConnect =
      ["transit_gateway_owner_id", "resource_owner_id", "resource_id", "state", "association",
       "creation_time"] := by decide
  refine ⟨rfl, hc, by decide, by decide, by decide, ?_, by decide, by decide, ?_⟩
  · intro kvt d meta w k hk
    rw [hc] at hk
    have hne : k ≠ "tags" ∧ k ≠ "transit_gateway_id" := by
      simp only [List.mem_cons, List.mem_singleton, List.not_mem_nil, or_false] at hk
      rcases hk with h | h | h | h | h | h <;> subst h <;> decide
    exact read_keeps_other_attributes kvt d meta w k hne.1 hne.2
  · intro d meta w
    exact ⟨create_keeps_values d meta w, create_never_describes_attachment d meta w⟩

/-- C10, the code at a failing input: "protocol", which the create handler reads at line 69,
is not a key of the schema map; on a configuration built over the schema of the resource
the read yields nil, the string assertion fails and the handler panics before any API
call. This holds for every resource data built over that schema. -/
theorem create_reads_undeclared_protocol :
    List.lookup "protocol" resourceAwsEc2TransitGatewayConnect.Schema = none ∧
    plannedData.Get "protocol" = none ∧
    (resourceAwsEc2TransitGatewayConnectCreate plannedData
      ⟨fixedEC2 (some createdOutput, none) none (some gatewayWithOptions, none)
        (some describedAttachment, none) none, noIgnoreRules⟩ ()).result = .panicked ∧
    (resourceAwsEc2TransitGatewayConnectCreate plannedData
      ⟨fixedEC2 (some createdOutput, none) none (some gatewayWithOptions, none)
        (some describedAttachment, none) none, noIgnoreRules⟩ ()).calls = [] ∧
    (∀ (d : ResourceData) (meta : AWSClient Unit) (w : Unit),
      d.schema = resourceAwsEc2TransitGatewayConnect.Schema →
      (resourceAwsEc2TransitGatewayConnectCreate d meta w).result = .panicked ∧
      (resourceAwsEc2TransitGatewayConnectCreate d meta w).calls = []) := by
  refine ⟨by decide, by decide, by decide, by decide, ?_⟩
  intro d meta w hs
  have hp : assertString (d.Get "protocol") = none := by
    have hl : List.lookup "protocol" resourceAwsEc2TransitGatewayConnect.Schema = none := by
      decide
    have : d.Get "protocol" = none := by
      simp only [ResourceData.Get, readField, hs, hl]
    rw [this]; rfl
  simp only [resourceAwsEc2TransitGatewayConnectCreate, hp]
  cases assertString (d.Get "transit_gateway_id") <;> simp

/-! ## Update -/

/-- C3: for every resource data of this resource, with old and new tag map as GetChange
gives them: when the two maps are equal the update handler issues no API call and returns
nil; otherwise it issues exactly one call, a tag update for its own id, whose removals are
exactly the keys present in old and absent in new and whose writes are exactly the entries
of new that are added or whose value changed. -/
theorem update_issues_exactly_the_tag_differences {W : Type}
    (d : ResourceData) (meta : AWSClient W) (w : W)
    (hschema : d.schema = resourceAwsEc2TransitGatewayConnect.Schema) :
    ((∀ k, List.lookup k (keyvaluetags.New (d.GetChange "tags").1) =
          List.lookup k (keyvaluetags.New (d.GetChange "tags").2)) →
      (resourceAwsEc2TransitGatewayConnectUpdate d meta w).calls = [] ∧
      (resourceAwsEc2TransitGatewayConnectUpdate d meta w).result = .returned none) ∧
    ((¬ ∀ k, List.lookup k (keyvaluetags.New (d.GetChange "tags").1) =
          List.lookup k (keyvaluetags.New (d.GetChange "tags").2)) →
      ∃ removed updated,
        (resourceAwsEc2TransitGatewayConnectUpdate d meta w).calls =
          [ApiCall.UpdateTags d.Id removed updated] ∧
        (∀ k, k ∈ removed ↔
          ((List.lookup k (keyvaluetags.New (d.GetChange "tags").1)).isSome ∧
            List.lookup k (keyvaluetags.New (d.GetChange "tags").2) = none)) ∧
        (∀ k v, (k, v) ∈ updated ↔
          (List.lookup k (keyvaluetags.New (d.GetChange "tags").2) = some v ∧
            List.lookup k (keyvaluetags.New (d.GetChange "tags").1) ≠ some v))) := by
  obtain ⟨mo, hmo⟩ := readField_tags_is_map d.state
  obtain ⟨mn, hmn⟩ := readField_tags_is_map d.values
  have hchange : d.GetChange "tags" = (some (.map mo), some (.map mn)) := by
    simp only [ResourceData.GetChange, hschema, hmo, hmn]
  have hhas : d.HasChange "tags" = !(TagMap.deepEqual mo mn) := by
    simp only [ResourceData.HasChange, hchange, deepEqual]
  simp only [hchange, keyvaluetags.New]
  constructor
  · intro heq
    have hde := (tagMap_deepEqual_iff mo mn).mpr heq
    simp [resourceAwsEc2TransitGatewayConnectUpdate, hhas, hde]
  · intro hne
    have hde : TagMap.deepEqual mo mn = false := by
      cases hb : TagMap.deepEqual mo mn
      · rfl
      · exact absurd ((tagMap_deepEqual_iff mo mn).mp hb) hne
    refine ⟨keyvaluetags.Removed mo mn, keyvaluetags.Updated mo mn, ?_, ?_, ?_⟩
    · simp only [resourceAwsEc2TransitGatewayConnectUpdate, hhas, hde, hchange,
        keyvaluetags.Ec2UpdateTags, keyvaluetags.New, Bool.not_false, if_true]
      cases (meta.ec2conn.UpdateTags d.Id (keyvaluetags.Removed mo mn)
        (keyvaluetags.Updated mo mn) w).1 <;> rfl
    · exact mem_removed_iff mo mn
    · exact mem_updated_iff mo mn

theorem update_issues_exactly_the_tag_differences_witness :
    existingData.schema = resourceAwsEc2TransitGatewayConnect.Schema ∧
    (resourceAwsEc2TransitGatewayConnectUpdate existingData quietClient ()).calls =
      [ApiCall.UpdateTags "tgw-attach-1" ["env"] [("Name", "b"), ("team", "net")]] ∧
    ((∀ k, List.lookup k (keyvaluetags.New (existingData.GetChange "tags").1) =
          List.lookup k (keyvaluetags.New (existingData.GetChange "tags").2)) →
      (resourceAwsEc2TransitGatewayConnectUpdate existingData quietClient ()).calls = [] ∧
      (resourceAwsEc2TransitGatewayConnectUpdate existingData quietClient ()).result =
        .returned none) ∧
    ((¬ ∀ k, List.lookup k (keyvaluetags.New (existingData.GetChange "tags").1) =
          List.lookup k (keyvaluetags.New (existingData.GetChange "tags").2)) →
      ∃ removed updated,
        (resourceAwsEc2TransitGatewayConnectUpdate existingData quietClient ()).calls =
          [ApiCall.UpdateTags existingData.Id removed updated] ∧
        (∀ k, k ∈ removed ↔
          ((List.lookup k (keyvaluetags.New (existingData.GetChange "tags").1)).isSome ∧
            List.lookup k (keyvaluetags.New (existingData.GetChange "tags").2) = none)) ∧
        (∀ k v, (k, v) ∈ updated ↔
          (List.lookup k (keyvaluetags.New (existingData.GetChange "tags").2) = some v ∧
            List.lookup k (keyvaluetags.New (existingData.GetChange "tags").1) ≠ some v))) :=
  ⟨rfl, by decide,
    update_issues_exactly_the_tag_differences existingData quietClient () rfl⟩

/-! ## Read: validation before writing -/

/-- For a found attachment whose transit gateway describe returns an error or a gateway, read
validates before it writes: a failed describe, a gateway without options or an attachment
without options each end in an error with the resource data untouched; when both
validations pass, read writes "tags" (the remote tags through both ignore filters) and
"transit_gateway_id" and returns nil. -/
theorem read_validates_before_it_writes_given_a_gateway {W : Type} (kvt : KeyValueTags)
    (d : ResourceData) (meta : AWSClient W) (w : W) (tgc : TransitGatewayConnect)
    (hschema : d.schema = resourceAwsEc2TransitGatewayConnect.Schema)
    (hfound : (meta.ec2conn.ec2DescribeTransitGatewayConnect d.Id w).1 = (some tgc, none)) :
    (∀ e, (meta.ec2conn.ec2DescribeTransitGateway (aws.StringValue tgc.TransitGatewayId)
          (meta.ec2conn.ec2DescribeTransitGatewayConnect d.Id w).2).1.2 = some e →
      (resourceAwsEc2TransitGatewayConnectRead kvt d meta w).result =
        .returned (some (.other ("error describing EC2 Transit Gateway (" ++
          aws.StringValue tgc.TransitGatewayId ++ "): " ++ e.Error))) ∧
      (resourceAwsEc2TransitGatewayConnectRead kvt d meta w).d = d) ∧
    (∀ g, (meta.ec2conn.ec2DescribeTransitGateway (aws.StringValue tgc.TransitGatewayId)
          (meta.ec2conn.ec2DescribeTransitGatewayConnect d.Id w).2).1 = (some g, none) →
      g.Options = none →
      (resourceAwsEc2TransitGatewayConnectRead kvt d meta w).result =
        .returned (some (.other ("error describing EC2 Transit Gateway (" ++
          aws.StringValue tgc.TransitGatewayId ++ "): missing options"))) ∧
      (resourceAwsEc2TransitGatewayConnectRead kvt d meta w).d = d) ∧
    (∀ g o, (meta.ec2conn.ec2DescribeTransitGateway (aws.StringValue tgc.TransitGatewayId)
          (meta.ec2conn.ec2DescribeTransitGatewayConnect d.Id w).2).1 = (some g, none) →
      g.Options = some o → tgc.Options = none →
      (resourceAwsEc2TransitGatewayConnectRead kvt d meta w).result =
        .returned (some (.other ("error reading EC2 Transit Gateway Connect (" ++
          d.Id ++ "): missing options"))) ∧
      (resourceAwsEc2TransitGatewayConnectRead kvt d meta w).d = d) ∧
    (∀ g o co, (meta.ec2conn.ec2DescribeTransitGateway (aws.StringValue tgc.TransitGatewayId)
          (meta.ec2conn.ec2DescribeTransitGatewayConnect d.Id w).2).1 = (some g, none) →
      g.Options = some o → tgc.Options = some co →
      (resourceAwsEc2TransitGatewayConnectRead kvt d meta w).result = .returned none ∧
      (resourceAwsEc2TransitGatewayConnectRead kvt d meta w).d =
        { d with values :=
            ("transit_gateway_id", .str (aws.StringValue tgc.TransitGatewayId)) ::
            ("tags", .map (kvt.IgnoreConfig meta.IgnoreTagsConfig (kvt.IgnoreAws tgc.Tags))) ::
            d.values }) := by
  have htags : List.lookup "tags" resourceAwsEc2TransitGatewayConnect.Schema =
      some tagsSchema := by decide
  have hgid : List.lookup "transit_gateway_id" resourceAwsEc2TransitGatewayConnect.Schema =
      some { Typ := .TypeString, Required := true, Optional := false, Computed := false } := by
    decide
  simp only [resourceAwsEc2TransitGatewayConnectRead]
  generalize meta.ec2conn.ec2DescribeTransitGatewayConnect d.Id w = r at hfound ⊢
  obtain ⟨⟨c, err⟩, w1⟩ := r
  simp only [Prod.mk.injEq] at hfound
  obtain ⟨hc, herr⟩ := hfound
  subst hc herr
  simp only [isAWSErr, Bool.false_eq_true, if_false]
  generalize meta.ec2conn.ec2DescribeTransitGateway (aws.StringValue tgc.TransitGatewayId) w1 = r2
  obtain ⟨⟨tgw, err2⟩, w2⟩ := r2
  refine ⟨?_, ?_, ?_, ?_⟩
  · intro e he
    simp only at he
    subst he
    simp [Errorf]
  · intro g hg ho
    simp only [Prod.mk.injEq] at hg
    obtain ⟨h1, h2⟩ := hg
    subst h1 h2
    simp [ho, ErrorfText]
  · intro g o hg ho hco
    simp only [Prod.mk.injEq] at hg
    obtain ⟨h1, h2⟩ := hg
    subst h1 h2
    simp [ho, hco, ErrorfText]
  · intro g o co hg ho hco
    simp only [Prod.mk.injEq] at hg
    obtain ⟨h1, h2⟩ := hg
    subst h1 h2
    simp [ho, hco, ResourceData.Set, hschema, htags, hgid, Value.typ, tagsSchema]

/-- C9, the code at a failing input: the attachment is found with its Options nil and the
describe of the owning transit gateway returns neither an error nor a gateway; the read
handler reaches the field access of line 123 on the nil gateway and panics instead of
returning an error. -/
theorem read_panics_when_gateway_describe_returns_nil :
    attachmentWithoutOptions.Options = none ∧
    (resourceAwsEc2TransitGatewayConnectRead keepAllTags existingData
      ⟨fixedEC2 (none, none) none (none, none) (some attachmentWithoutOptions, none) none,
        noIgnoreRules⟩ ()).result = .panicked ∧
    (∀ e, (resourceAwsEc2TransitGatewayConnectRead keepAllTags existingData
      ⟨fixedEC2 (none, none) none (none, none) (some attachmentWithoutOptions, none) none,
        noIgnoreRules⟩ ()).result ≠ .returned (some e)) := by
  refine ⟨rfl, by decide, ?_⟩
  intro e
  have h : (resourceAwsEc2TransitGatewayConnectRead keepAllTags existingData
      ⟨fixedEC2 (none, none) none (none, none) (some attachmentWithoutOptions, none) none,
        noIgnoreRules⟩ ()).result = .panicked := by decide
  rw [h]
  exact fun hne => Outcome.noConfusion hne

end Ec2TransitGatewayConnect
